import Mathlib

/-!
# msql: a fluent builder of parameterised SQL statements

Shallow embedding of `sql_query.go` and the properties of its statement
builder.

* Go strings are Lean strings; `strings.Builder` is a string accumulator that
  each writer takes and returns.
* `interface{}` values are the closed type `Value`.
* `SQLField` (a Go map) is the list of its entries, keys pairwise distinct,
  in the order in which a `range` loop visits them.  Go leaves that order
  unspecified, so statements quantify over every order.
* A Go slice that may be `nil` is an `Option (List _)`: `none` is the nil
  slice, `some []` the empty, allocated one.
* The builder methods mutate the receiver and return it; here each takes the
  builder state and returns the new state.
-/

namespace Msql

/-! ## Values and fields -/

/-- Dynamic values a field may carry (Go `interface{}`).  A `float64` is
carried as the text the `%v` verb prints for it; `seq` stands for every value
whose reflected kind is `Slice` or `Array`. -/
inductive Value where
  | nil : Value
  | str (s : String) : Value
  | int64 (i : Int) : Value
  | int (i : Int) : Value
  | float64 (text : String) : Value
  | bool (b : Bool) : Value
  | seq (elems : List Value) : Value

/-- The test `vT.Kind() == reflect.Slice || vT.Kind() == reflect.Array`. -/
def Value.isSeq : Value → Bool
  | Value.seq _ => true
  | _ => false

/-- The type `SQLField`, `map[string]interface{}`: its entries in iteration
order. -/
abbrev SQLField := List (String × Value)

/-- The map read `field[key]`; `none` when the key is absent. -/
def SQLField.get (field : SQLField) (key : String) : Option Value :=
  List.lookup key field

/-- The function `strconv.Itoa`: base-10 text of an integer. -/
def itoa : Int → String
  | Int.ofNat n => Nat.repr n
  | Int.negSucc n => "-" ++ Nat.repr (n + 1)

/-- The function `strings.Join`. -/
def Join : List String → String → String
  | [], _ => ""
  | [a], _ => a
  | a :: b :: rest, sep => a ++ sep ++ Join (b :: rest) sep

mutual
/-- The verb `%v` of `fmt.Sprintf` on a value. -/
def fmtV : Value → String
  | Value.nil => "<nil>"
  | Value.str s => s
  | Value.int64 i => itoa i
  | Value.int i => itoa i
  | Value.float64 text => text
  | Value.bool b => if b then "true" else "false"
  | Value.seq elems => "[" ++ fmtVElems elems ++ "]"
/-- The elements of a slice under `%v`, separated by one blank. -/
def fmtVElems : List Value → String
  | [] => ""
  | [e] => fmtV e
  | e :: e2 :: rest => fmtV e ++ " " ++ fmtVElems (e2 :: rest)
end

/-! ## Field helpers -/

/-- The map write `s[key] = v`: a key already present keeps its place and
takes the new value; a new key is added, here as the last entry visited (Go
fixes no place for it, statements that depend on it quantify over the
orders). -/
def SQLField.put (s : SQLField) (key : String) (v : Value) : SQLField :=
  if s.any (fun kv => kv.1 = key) then
    s.map (fun kv => if kv.1 = key then (kv.1, v) else kv)
  else
    s ++ [(key, v)]

/-- The method `Lt()`. -/
def SQLField.Lt (s : SQLField) : SQLField :=
  if s.length = 1 then s.put "operator" (Value.str "<") else s

/-- The method `Gte()`. -/
def SQLField.Gte (s : SQLField) : SQLField :=
  if s.length = 1 then s.put "operator" (Value.str ">=") else s

/-- The method `String(key)`: a type switch on `s[key]`. -/
def SQLField.String (s : SQLField) (key : String) : String :=
  match s.get key with
  | some (Value.str v) => v
  | some (Value.int64 v) => itoa v
  | some (Value.int v) => itoa v
  | some (Value.float64 text) => text
  | _ => ""

/-! ## The builder state -/

/-- The sentinel errors of the package. -/
inductive SQLError where
  | ErrInvalidSQLStatement : SQLError
  deriving DecidableEq, Repr

/-- The struct `SQLQuery`; the defaults are Go zero values. -/
structure SQLQuery where
  query : String := ""
  args : Option (List Value) := none
  selectClause : String := ""
  fromClause : String := ""
  whereClause : String := ""
  insertClause : String := ""
  updateClause : String := ""
  setClause : String := ""
  offsetClause : String := ""
  limitClause : String := ""

/-- The builtin `append(s, elems...)` on a slice that may be nil: appending
nothing returns `s` itself, so a nil slice stays nil. -/
def goAppend (s : Option (List Value)) (elems : List Value) : Option (List Value) :=
  match elems with
  | [] => s
  | _ :: _ => some (s.getD [] ++ elems)

/-! ## Constructors -/

/-- The constructor `Count(alias)`. -/
def Count (aliasName : String) : SQLQuery :=
  let sb := ""
  let sb := sb ++ "SELECT COUNT(*) AS "
  let sb := sb ++ aliasName
  { selectClause := sb, args := some [] }

/-- The constructor `Select(fields...)`. -/
def Select (fields : List String) : SQLQuery :=
  let sb := ""
  let selectFields := "*"
  let sb := sb ++ "SELECT "
  let selectFields := if fields.length > 0 then Join fields ", " else selectFields
  let sb := sb ++ selectFields
  { selectClause := sb, args := some [] }

/-- The constructor `Update(tableName)`. -/
def Update (tableName : String) : SQLQuery :=
  { updateClause := "UPDATE " ++ tableName }

/-- The inner loop of `Insert` over the entries of field `i`: every entry
overwrites `fieldNames[i]`, `args[i]` and `fieldValues[i]`, which start as
zero values. -/
def insertSlot (f : SQLField) : String × Value × String :=
  f.foldl (fun _ kv => (kv.1, kv.2, "?")) ("", Value.nil, "")

/-- The constructor `Insert(tableName, fields...)`. -/
def Insert (tableName : String) (fields : List SQLField) : SQLQuery :=
  if tableName = "" ∨ fields.length = 0 then
    { insertClause := "" }
  else
    let slots := fields.map insertSlot
    let args := slots.map (fun s => s.2.1)
    let fieldNames := slots.map (fun s => s.1)
    let fieldValues := slots.map (fun s => s.2.2)
    let sb := ""
    let sb := sb ++ ("INSERT INTO " ++ tableName ++ " ")
    let sb := sb ++ ("( " ++ Join fieldNames ", " ++ " )")
    let sb := sb ++ " VALUES "
    let sb := sb ++ ("( " ++ Join fieldValues ", " ++ " )")
    { insertClause := sb, args := some args }

/-! ## Placeholder writers -/

/-- The loop `for i := 0; i < vT.Len(); i++` of `writeValue`: one argument and
one `?` per element, a comma after all but the last. -/
def writeElems : List Value → String × List Value → String × List Value
  | [], st => st
  | [e], (sb, args) => (sb ++ "?", args ++ [e])
  | e :: e2 :: rest, (sb, args) => writeElems (e2 :: rest) (sb ++ "?" ++ ",", args ++ [e])

/-- The loop `for k, v := range field` of `writeValue` over the entries still
to visit; `field` is the whole map, read for its operator. -/
def writeValueLoop (field : SQLField) :
    List (String × Value) → String × List Value → String × List Value
  | [], st => st
  | (k, v) :: rest, (sb, args) =>
    if k = "operator" then
      writeValueLoop field rest (sb, args)
    else
      match v with
      | Value.seq elems =>
        let st := writeElems elems (sb ++ (k ++ " IN ") ++ "(", args)
        (st.1 ++ ")", st.2)
      | _ =>
        let stmnt :=
          match field.get "operator" with
          | none => k ++ " = ?"
          | some Value.nil => k ++ " = ?"
          | some operator => k ++ " " ++ fmtV operator ++ " ?"
        writeValueLoop field rest (sb ++ stmnt, args ++ [v])

/-- The function `writeValue(sb, args, field)`, as a transformer of the
builder text and the argument slice. -/
def writeValue (st : String × List Value) (field : SQLField) : String × List Value :=
  writeValueLoop field field st

/-- The loop of `writePlaceholder`: the separator follows every field but the
last. -/
def writeFields (sep : String) : List SQLField → String × List Value → String × List Value
  | [], st => st
  | [f], st => writeValue st f
  | f :: f2 :: rest, st =>
    let st := writeValue st f
    writeFields sep (f2 :: rest) (st.1 ++ sep, st.2)

/-- The function `writePlaceholder(sb, sep, fields...)`: the builder text
after the call, and the returned arguments. -/
def writePlaceholder (sb : String) (sep : String) (fields : List SQLField) :
    String × List Value :=
  writeFields sep fields (sb, [])

/-! ## Chained mutators -/

/-- The method `Set(fields...)`. -/
def SQLQuery.Set (q : SQLQuery) (fields : List SQLField) : SQLQuery :=
  if fields.length = 0 then q
  else
    let r := writePlaceholder ("" ++ "SET ") ", " fields
    { q with args := goAppend q.args r.2, setClause := r.1 }

/-- The method `From(tableName)`. -/
def SQLQuery.From (q : SQLQuery) (tableName : String) : SQLQuery :=
  if tableName = "" then q
  else { q with fromClause := "FROM " ++ tableName }

/-- The method `Where(fields...)`. -/
def SQLQuery.Where (q : SQLQuery) (fields : List SQLField) : SQLQuery :=
  if fields.length = 0 then q
  else
    let r := writePlaceholder ("" ++ "WHERE ") " AND " fields
    { q with args := goAppend q.args r.2, whereClause := r.1 }

/-- The method `Offset(offset)`. -/
def SQLQuery.Offset (q : SQLQuery) (offset : Int) : SQLQuery :=
  { q with offsetClause := "OFFSET " ++ itoa offset }

/-- The method `Limit(limit)`. -/
def SQLQuery.Limit (q : SQLQuery) (limit : Int) : SQLQuery :=
  { q with limitClause := "LIMIT " ++ itoa limit }

/-! ## Generation -/

/-- The triple `(string, []interface{}, error)` returned by `Generate`. -/
abbrev GenResult := String × Option (List Value) × Option SQLError

/-- The method `Generate()`. -/
def SQLQuery.Generate (q : SQLQuery) : GenResult :=
  if q.insertClause ≠ "" then
    (q.insertClause, q.args, none)
  else if q.updateClause ≠ "" ∧ q.setClause ≠ "" then
    let stmnt := q.updateClause ++ " " ++ q.setClause
    if q.whereClause ≠ "" then
      (stmnt ++ " " ++ q.whereClause, q.args, none)
    else
      (stmnt, q.args, none)
  else if q.selectClause ≠ "" ∧ q.fromClause ≠ "" then
    let stmnt := q.selectClause ++ " " ++ q.fromClause
    let stmnt := if q.whereClause ≠ "" then stmnt ++ " " ++ q.whereClause else stmnt
    let stmnt := if q.offsetClause ≠ "" then stmnt ++ " " ++ q.offsetClause else stmnt
    let stmnt := if q.limitClause ≠ "" then stmnt ++ " " ++ q.limitClause else stmnt
    (stmnt, q.args, none)
  else
    ("", none, some SQLError.ErrInvalidSQLStatement)

/-- The method `Generate()` as a step on the builder: the receiver after the
call, and the returned triple.  No branch of the method assigns to a field of
the receiver. -/
def SQLQuery.GenerateSt (q : SQLQuery) : SQLQuery × GenResult :=
  if q.insertClause ≠ "" then
    (q, (q.insertClause, q.args, none))
  else if q.updateClause ≠ "" ∧ q.setClause ≠ "" then
    let stmnt := q.updateClause ++ " " ++ q.setClause
    if q.whereClause ≠ "" then
      (q, (stmnt ++ " " ++ q.whereClause, q.args, none))
    else
      (q, (stmnt, q.args, none))
  else if q.selectClause ≠ "" ∧ q.fromClause ≠ "" then
    let stmnt := q.selectClause ++ " " ++ q.fromClause
    let stmnt := if q.whereClause ≠ "" then stmnt ++ " " ++ q.whereClause else stmnt
    let stmnt := if q.offsetClause ≠ "" then stmnt ++ " " ++ q.offsetClause else stmnt
    let stmnt := if q.limitClause ≠ "" then stmnt ++ " " ++ q.limitClause else stmnt
    (q, (stmnt, q.args, none))
  else
    (q, ("", none, some SQLError.ErrInvalidSQLStatement))

/-! ## Call sequences -/

/-- One chained mutator call with its arguments. -/
inductive Call where
  | Set (fields : List SQLField) : Call
  | From (tableName : String) : Call
  | Where (fields : List SQLField) : Call
  | Offset (offset : Int) : Call
  | Limit (limit : Int) : Call

/-- The builder after one chained call. -/
def Call.apply (q : SQLQuery) : Call → SQLQuery
  | Call.Set fields => q.Set fields
  | Call.From tableName => q.From tableName
  | Call.Where fields => q.Where fields
  | Call.Offset offset => q.Offset offset
  | Call.Limit limit => q.Limit limit

/-- The builder after a chain of calls, applied left to right. -/
def runCalls (q : SQLQuery) (calls : List Call) : SQLQuery :=
  calls.foldl Call.apply q

/-- Whether a call is one of `Set` and `Where`, the two that an UPDATE
statement reads. -/
def Call.isSetOrWhere : Call → Bool
  | Call.Set _ => true
  | Call.Where _ => true
  | _ => false

/-! ## Notions the statements are phrased in -/

/-- Base-10 text of an integer as the specification words it: the digits of
the magnitude, after a `-` for a negative number. -/
def decimal (i : Int) : String :=
  if i < 0 then "-" ++ Nat.repr i.natAbs else Nat.repr i.natAbs

/-- The parts of the builder that `Generate` reads for an UPDATE statement,
with the SELECT clause that decides whether it falls through to that shape. -/
def updateView (q : SQLQuery) :
    Option (List Value) × String × String × String × String × String :=
  (q.args, q.insertClause, q.updateClause, q.setClause, q.whereClause, q.selectClause)

/-- A chain link that is either called (`true`) or left out (`false`). -/
def callIf (called : Bool) (f : SQLQuery → SQLQuery) (q : SQLQuery) : SQLQuery :=
  if called then f q else q

/-- Number of `?` characters of a statement. -/
def countPlaceholders (stmt : String) : Nat :=
  stmt.data.count '?'

/-- Length of a Go slice; a nil slice has length zero. -/
def sliceLen (s : Option (List Value)) : Nat :=
  (s.getD []).length

/-! ## Auxiliary facts on strings and slices -/

theorem str_append_ne_empty_left {a : String} (b : String) (h : a ≠ "") : a ++ b ≠ "" := by
  intro hab
  apply h
  have hd := congrArg String.data hab
  rw [String.data_append] at hd
  exact String.ext (List.append_eq_nil.mp hd).1

theorem str_append_ne_empty_right (a : String) {b : String} (h : b ≠ "") : a ++ b ≠ "" := by
  intro hab
  apply h
  have hd := congrArg String.data hab
  rw [String.data_append] at hd
  exact String.ext (List.append_eq_nil.mp hd).2

theorem goAppend_cons (s : Option (List Value)) {elems : List Value} (h : elems ≠ []) :
    goAppend s elems = some (s.getD [] ++ elems) := by
  cases elems with
  | nil => exact absurd rfl h
  | cons e es => rfl

/-! ## Scalar and sequence entries -/

theorem writeElems_eq (elems : List Value) (sb : String) (args : List Value) :
    writeElems elems (sb, args) =
      (sb ++ Join (List.replicate elems.length "?") ",", args ++ elems) := by
  induction elems generalizing sb args with
  | nil => simp [writeElems, Join]
  | cons e es ih =>
    cases es with
    | nil => simp [writeElems, Join]
    | cons e2 rest =>
      rw [writeElems, ih]
      simp [List.replicate, Join, String.append_assoc]

theorem insertSlot_single (kv : String × Value) : insertSlot [kv] = (kv.1, kv.2, "?") := rfl

/-- A field whose only entry is a column with a scalar value renders as
`column = ?` and binds that value. -/
theorem writeValue_scalar (k : String) (v : Value) (sb : String) (args : List Value)
    (hk : k ≠ "operator") (hv : v.isSeq = false) :
    writeValue (sb, args) [(k, v)] = (sb ++ (k ++ " = ?"), args ++ [v]) := by
  have hlook : SQLField.get [(k, v)] "operator" = none := by
    have : ("operator" == k) = false := by
      simpa using fun h => hk h.symm
    simp [SQLField.get, List.lookup, this]
  cases v <;> simp_all [writeValue, writeValueLoop, Value.isSeq]

/-- Fields of one scalar column each are joined by the separator, their values
bound in field order. -/
theorem writeFields_scalars (sep : String) (ws : List (String × Value))
    (hk : ∀ w ∈ ws, w.1 ≠ "operator" ∧ w.2.isSeq = false) (sb : String) (args : List Value) :
    writeFields sep (ws.map fun w => [w]) (sb, args) =
      (sb ++ Join (ws.map fun w => w.1 ++ " = ?") sep, args ++ ws.map Prod.snd) := by
  induction ws generalizing sb args with
  | nil => simp [writeFields, Join]
  | cons w rest ih =>
    obtain ⟨k, v⟩ := w
    have hw := hk (k, v) (List.mem_cons_self _ _)
    cases rest with
    | nil => simp [writeFields, Join, writeValue_scalar k v sb args hw.1 hw.2]
    | cons w2 rest2 =>
      have ih2 := ih (fun w hmem => hk w (List.mem_cons_of_mem _ hmem))
      simp only [List.map_cons] at ih2 ⊢
      rw [writeFields, writeValue_scalar k v sb args hw.1 hw.2]
      simp only []
      rw [ih2]
      simp [Join, String.append_assoc]

/-! ## Statement shapes -/

/-- C1: for a non-empty table name and a non-empty list of single-entry
fields, `Insert(t, f1..fn).Generate()` succeeds with the statement
`INSERT INTO t ( c1, .., cn ) VALUES ( ?, .., ? )` and the values in field
order as arguments. -/
theorem insert_generate (t : String) (cvs : List (String × Value))
    (ht : t ≠ "") (hf : cvs ≠ []) :
    (Insert t (cvs.map fun cv => [cv])).Generate =
      ("INSERT INTO " ++ t ++ " ( " ++ Join (cvs.map Prod.fst) ", " ++ " ) VALUES ( "
          ++ Join (List.replicate cvs.length "?") ", " ++ " )",
        some (cvs.map Prod.snd), none) := by
  have hlen : ¬ (t = "" ∨ (cvs.map fun cv => ([cv] : SQLField)).length = 0) := by
    simp [ht, hf]
  have hne : "INSERT INTO " ++ t ++ " ( " ++ Join (cvs.map Prod.fst) ", " ++ " ) VALUES ( "
      ++ Join (List.replicate cvs.length "?") ", " ++ " )" ≠ "" := by
    simp only [String.append_assoc]
    exact str_append_ne_empty_left _ (by decide)
  have hargs : List.map (fun s : String × Value × String => s.2.1)
      (List.map insertSlot (cvs.map fun cv => ([cv] : SQLField))) = cvs.map Prod.snd := by
    simp [List.map_map, Function.comp_def, insertSlot_single]
  have hnames : List.map (fun s : String × Value × String => s.1)
      (List.map insertSlot (cvs.map fun cv => ([cv] : SQLField))) = cvs.map Prod.fst := by
    simp [List.map_map, Function.comp_def, insertSlot_single]
  have hvals : List.map (fun s : String × Value × String => s.2.2)
      (List.map insertSlot (cvs.map fun cv => ([cv] : SQLField)))
        = List.replicate cvs.length "?" := by
    simp [List.map_map, Function.comp_def, insertSlot_single, List.map_const']
  have hclause : (Insert t (cvs.map fun cv => [cv])).insertClause =
      "INSERT INTO " ++ t ++ " ( " ++ Join (cvs.map Prod.fst) ", " ++ " ) VALUES ( "
          ++ Join (List.replicate cvs.length "?") ", " ++ " )" := by
    unfold Insert
    rw [if_neg hlen]
    simp only [hnames, hvals]
    apply String.ext
    simp [String.data_append]
  have hq : (Insert t (cvs.map fun cv => [cv])).args = some (cvs.map Prod.snd) := by
    unfold Insert
    rw [if_neg hlen]
    simp only [hargs]
  unfold SQLQuery.Generate
  rw [if_pos (by rw [hclause]; exact hne), hclause, hq]

/-- Witness of C1 on the three-column insert of the test suite. -/
theorem insert_generate_witness :
    (Insert "table_name"
        [[("col1", Value.str "val1")], [("col2", Value.str "val2")],
          [("col3", Value.str "val3")]]).Generate =
      ("INSERT INTO table_name ( col1, col2, col3 ) VALUES ( ?, ?, ? )",
        some [Value.str "val1", Value.str "val2", Value.str "val3"], none) :=
  insert_generate "table_name"
    [("col1", Value.str "val1"), ("col2", Value.str "val2"), ("col3", Value.str "val3")]
    (by decide) (by simp)

/-- On a non-empty list of single scalar columns, `Where` writes the
conditions joined by ` AND ` and appends their values. -/
theorem Where_scalars (q : SQLQuery) (ws : List (String × Value)) (hw : ws ≠ [])
    (hk : ∀ w ∈ ws, w.1 ≠ "operator" ∧ w.2.isSeq = false) :
    q.Where (ws.map fun w => [w]) =
      { q with
        args := some (q.args.getD [] ++ ws.map Prod.snd)
        whereClause := "WHERE " ++ Join (ws.map fun w => w.1 ++ " = ?") " AND " } := by
  have hlen : ¬ (ws.map fun w => ([w] : SQLField)).length = 0 := by simp [hw]
  have hvals : ws.map Prod.snd ≠ [] := by simp [hw]
  unfold SQLQuery.Where
  rw [if_neg hlen]
  simp only [writePlaceholder, writeFields_scalars " AND " ws hk, List.nil_append,
    goAppend_cons q.args hvals, String.empty_append]

/-- On a non-empty list of single scalar columns, `Set` writes the
assignments joined by `, ` and appends their values. -/
theorem Set_scalars (q : SQLQuery) (ss : List (String × Value)) (hs : ss ≠ [])
    (hk : ∀ s ∈ ss, s.1 ≠ "operator" ∧ s.2.isSeq = false) :
    q.Set (ss.map fun s => [s]) =
      { q with
        args := some (q.args.getD [] ++ ss.map Prod.snd)
        setClause := "SET " ++ Join (ss.map fun s => s.1 ++ " = ?") ", " } := by
  have hlen : ¬ (ss.map fun s => ([s] : SQLField)).length = 0 := by simp [hs]
  have hvals : ss.map Prod.snd ≠ [] := by simp [hs]
  unfold SQLQuery.Set
  rw [if_neg hlen]
  simp only [writePlaceholder, writeFields_scalars ", " ss hk, List.nil_append,
    goAppend_cons q.args hvals, String.empty_append]

/-- The statement of the SELECT shape: the clause and the table, then each
populated fragment. -/
theorem generate_select_shape (q : SQLQuery) (hi : q.insertClause = "")
    (hu : q.updateClause = "") (hs : q.selectClause ≠ "") (hf : q.fromClause ≠ "") :
    q.Generate =
      (q.selectClause ++ " " ++ q.fromClause
          ++ (if q.whereClause ≠ "" then " " ++ q.whereClause else "")
          ++ (if q.offsetClause ≠ "" then " " ++ q.offsetClause else "")
          ++ (if q.limitClause ≠ "" then " " ++ q.limitClause else ""),
        q.args, none) := by
  unfold SQLQuery.Generate
  simp only [hi, hu, hs, hf, ne_eq, not_true_eq_false, not_false_eq_true, if_false, if_true,
    false_and, and_self]
  by_cases h1 : q.whereClause = "" <;> by_cases h2 : q.offsetClause = "" <;>
    by_cases h3 : q.limitClause = "" <;>
    simp [h1, h2, h3, String.append_assoc]

/-- The statement of the UPDATE shape: the two clauses, then the WHERE clause
when populated. -/
theorem generate_update_shape (q : SQLQuery) (hi : q.insertClause = "")
    (hu : q.updateClause ≠ "") (hs : q.setClause ≠ "") :
    q.Generate =
      (q.updateClause ++ " " ++ q.setClause
          ++ (if q.whereClause ≠ "" then " " ++ q.whereClause else ""),
        q.args, none) := by
  unfold SQLQuery.Generate
  simp only [hi, hu, hs, ne_eq, not_true_eq_false, not_false_eq_true, if_false, if_true,
    and_self]
  by_cases h1 : q.whereClause = "" <;> simp [h1, String.append_assoc]

theorem Select_selectClause (cols : List String) :
    (Select cols).selectClause = "SELECT " ++ (if cols = [] then "*" else Join cols ", ") := by
  cases cols with
  | nil => rfl
  | cons c cs => simp [Select]

theorem Select_selectClause_ne (cols : List String) : (Select cols).selectClause ≠ "" := by
  rw [Select_selectClause]
  exact str_append_ne_empty_left _ (by decide)

/-- C2: `Select(cols...).From(t).Where(w1..wm).Offset(o).Limit(l).Generate()`
succeeds with `SELECT P FROM t WHERE d1 = ? AND .. OFFSET o LIMIT l` and the
arguments `[x1, .., xm]`, where `P` is `*` for no column and the columns joined
by `, ` otherwise.  Each of `Where`, `Offset` and `Limit` may be left out of
the chain (`false`), and its fragment is in the statement exactly when it is
called; a field without operator has no `operator` key, so its column is not
that key. -/
theorem select_generate (cols : List String) (t : String) (ws : List (String × Value))
    (o l : Int) (calledWhere calledOffset calledLimit : Bool)
    (ht : t ≠ "") (hw : ws ≠ [])
    (hk : ∀ w ∈ ws, w.1 ≠ "operator" ∧ w.2.isSeq = false) :
    (callIf calledLimit (fun q => q.Limit l)
        (callIf calledOffset (fun q => q.Offset o)
          (callIf calledWhere (fun q => q.Where (ws.map fun w => [w]))
            ((Select cols).From t)))).Generate =
      ("SELECT " ++ (if cols = [] then "*" else Join cols ", ") ++ " FROM " ++ t
          ++ (if calledWhere then
                " WHERE " ++ Join (ws.map fun w => w.1 ++ " = ?") " AND " else "")
          ++ (if calledOffset then " OFFSET " ++ itoa o else "")
          ++ (if calledLimit then " LIMIT " ++ itoa l else ""),
        some (if calledWhere then ws.map Prod.snd else []), none) := by
  have hfrom : (Select cols).From t = { Select cols with fromClause := "FROM " ++ t } := by
    simp [SQLQuery.From, ht]
  have hfne : "FROM " ++ t ≠ "" := str_append_ne_empty_left _ (by decide)
  have hwne : "WHERE " ++ Join (ws.map fun w => w.1 ++ " = ?") " AND " ≠ "" :=
    str_append_ne_empty_left _ (by decide)
  have hone : "OFFSET " ++ itoa o ≠ "" := str_append_ne_empty_left _ (by decide)
  have hlne : "LIMIT " ++ itoa l ≠ "" := str_append_ne_empty_left _ (by decide)
  have hsne := Select_selectClause_ne cols
  have hsel := Select_selectClause cols
  have hsi : (Select cols).insertClause = "" := rfl
  have hsu : (Select cols).updateClause = "" := rfl
  have hsw : (Select cols).whereClause = "" := rfl
  have hso : (Select cols).offsetClause = "" := rfl
  have hsl : (Select cols).limitClause = "" := rfl
  have hsa : (Select cols).args = some [] := rfl
  rw [generate_select_shape]
  · cases calledWhere <;> cases calledOffset <;> cases calledLimit <;>
      simp [callIf, hfrom, Where_scalars _ ws hw hk, SQLQuery.Offset, SQLQuery.Limit,
        hsw, hso, hsl, hsa, hsel, hwne, hone, hlne, String.append_assoc] <;>
      (apply String.ext; simp [String.data_append])
  · cases calledWhere <;> cases calledOffset <;> cases calledLimit <;>
      simp [callIf, hfrom, Where_scalars _ ws hw hk, SQLQuery.Offset, SQLQuery.Limit, hsi]
  · cases calledWhere <;> cases calledOffset <;> cases calledLimit <;>
      simp [callIf, hfrom, Where_scalars _ ws hw hk, SQLQuery.Offset, SQLQuery.Limit, hsu]
  · cases calledWhere <;> cases calledOffset <;> cases calledLimit <;>
      simp [callIf, hfrom, Where_scalars _ ws hw hk, SQLQuery.Offset, SQLQuery.Limit, hsne]
  · cases calledWhere <;> cases calledOffset <;> cases calledLimit <;>
      simp [callIf, hfrom, Where_scalars _ ws hw hk, SQLQuery.Offset, SQLQuery.Limit, hfne]

/-- Witness of C2 on the chain of the test suite with all three optional
calls made. -/
theorem select_generate_witness :
    (((((Select ["col1", "col2", "col3"]).From "table_name").Where
        [[("col1", Value.str "val1")], [("col2", Value.str "val2")]]).Offset 1).Limit 10).Generate =
      ("SELECT col1, col2, col3 FROM table_name WHERE col1 = ? AND col2 = ? OFFSET 1 LIMIT 10",
        some [Value.str "val1", Value.str "val2"], none) :=
  select_generate ["col1", "col2", "col3"] "table_name"
    [("col1", Value.str "val1"), ("col2", Value.str "val2")] 1 10 true true true
    (by decide) (by simp) (by decide)

/-- C3: for single scalar columns without operator,
`Update(t).Set(s1..sn).Generate()` returns `UPDATE t SET c1 = ?, ..` with the
values of the assignments, and with `.Where(w1..wm)` chained the statement
continues with ` WHERE d1 = ? AND ..` and the arguments with the values of the
conditions. -/
theorem update_generate (t : String) (ss ws : List (String × Value))
    (hs : ss ≠ []) (hw : ws ≠ [])
    (hks : ∀ s ∈ ss, s.1 ≠ "operator" ∧ s.2.isSeq = false)
    (hkw : ∀ w ∈ ws, w.1 ≠ "operator" ∧ w.2.isSeq = false) :
    ((Update t).Set (ss.map fun s => [s])).Generate =
        ("UPDATE " ++ t ++ " SET " ++ Join (ss.map fun s => s.1 ++ " = ?") ", ",
          some (ss.map Prod.snd), none)
      ∧ (((Update t).Set (ss.map fun s => [s])).Where (ws.map fun w => [w])).Generate =
        ("UPDATE " ++ t ++ " SET " ++ Join (ss.map fun s => s.1 ++ " = ?") ", "
            ++ " WHERE " ++ Join (ws.map fun w => w.1 ++ " = ?") " AND ",
          some (ss.map Prod.snd ++ ws.map Prod.snd), none) := by
  have hune : "UPDATE " ++ t ≠ "" := str_append_ne_empty_left _ (by decide)
  have hsne : "SET " ++ Join (ss.map fun s => s.1 ++ " = ?") ", " ≠ "" :=
    str_append_ne_empty_left _ (by decide)
  have hwne : "WHERE " ++ Join (ws.map fun w => w.1 ++ " = ?") " AND " ≠ "" :=
    str_append_ne_empty_left _ (by decide)
  constructor
  · rw [generate_update_shape]
    · simp [Set_scalars _ ss hs hks, Update, String.append_assoc]
      apply String.ext
      simp [String.data_append]
    · simp [Set_scalars _ ss hs hks, Update]
    · simp [Set_scalars _ ss hs hks, Update, hune]
    · simp [Set_scalars _ ss hs hks, Update, hsne]
  · rw [generate_update_shape]
    · simp [Set_scalars _ ss hs hks, Where_scalars _ ws hw hkw, Update, hwne,
        String.append_assoc]
      apply String.ext
      simp [String.data_append]
    · simp [Set_scalars _ ss hs hks, Where_scalars _ ws hw hkw, Update]
    · simp [Set_scalars _ ss hs hks, Where_scalars _ ws hw hkw, Update, hune]
    · simp [Set_scalars _ ss hs hks, Where_scalars _ ws hw hkw, Update, hsne]

/-- Witness of C3 on the two updates of the test suite. -/
theorem update_generate_witness :
    ((Update "table_name").Set [[("col1", Value.str "val1")]]).Generate =
        ("UPDATE table_name SET col1 = ?", some [Value.str "val1"], none)
      ∧ (((Update "table_name").Set [[("col1", Value.str "val1")]]).Where
          [[("col2", Value.str "val2")]]).Generate =
        ("UPDATE table_name SET col1 = ? WHERE col2 = ?",
          some [Value.str "val1", Value.str "val2"], none) :=
  update_generate "table_name" [("col1", Value.str "val1")] [("col2", Value.str "val2")]
    (by simp) (by simp) (by decide) (by decide)

/-! ## Sequence values -/

/-- The loop of `writeValue` on entries whose only column carries a sequence:
operator entries are skipped, the column is expanded and the loop returns. -/
theorem writeValueLoop_seq (field : SQLField) (c : String) (es : List Value)
    (entries : List (String × Value))
    (hent : entries.filter (fun kv => kv.1 ≠ "operator") = [(c, Value.seq es)])
    (sb : String) (args : List Value) :
    writeValueLoop field entries (sb, args) =
      (sb ++ c ++ " IN (" ++ Join (List.replicate es.length "?") "," ++ ")", args ++ es) := by
  induction entries with
  | nil => simp at hent
  | cons kv rest ih =>
    obtain ⟨k, v⟩ := kv
    by_cases hk : k = "operator"
    · have hrest : rest.filter (fun kv => kv.1 ≠ "operator") = [(c, Value.seq es)] := by
        simpa [List.filter_cons, hk] using hent
      simp only [writeValueLoop, hk, if_true]
      exact ih hrest
    · have hhead : (k, v) = (c, Value.seq es) := by
        have h := hent
        simp only [List.filter_cons, hk, ne_eq, not_false_eq_true, decide_True, if_true] at h
        exact (List.cons.inj h).1
      cases hhead
      simp only [writeValueLoop, hk, if_false, writeElems_eq]
      refine Prod.ext ?_ rfl
      apply String.ext
      simp [String.data_append]

/-- C4: a field whose one column `c` carries a sequence `e1..en` (with or
without an operator entry) is written as `c IN (?,..,?)` with `n` marks joined
by `,`, and exactly `e1, .., en` are appended in order; so `Where` and `Set` on
that field alone write `WHERE c IN (..)` and `SET c IN (..)`, and after a
scalar field the clause is `WHERE c1 = ? AND c IN (..)` (for `Set`, joined by
`, `) with the scalar value and then the elements as appended arguments. -/
theorem seq_field_rendering (c : String) (es : List Value) (field : SQLField)
    (hfield : field.filter (fun kv => kv.1 ≠ "operator") = [(c, Value.seq es)])
    (sb : String) (args : List Value) (q : SQLQuery)
    (c1 : String) (v : Value) (hc1 : c1 ≠ "operator") (hv : v.isSeq = false) :
    writeValue (sb, args) field =
        (sb ++ c ++ " IN (" ++ Join (List.replicate es.length "?") "," ++ ")", args ++ es)
      ∧ (q.Where [field]).whereClause =
          "WHERE " ++ c ++ " IN (" ++ Join (List.replicate es.length "?") "," ++ ")"
      ∧ (q.Where [field]).args = goAppend q.args es
      ∧ (q.Set [field]).setClause =
          "SET " ++ c ++ " IN (" ++ Join (List.replicate es.length "?") "," ++ ")"
      ∧ (q.Set [field]).args = goAppend q.args es
      ∧ (q.Where [[(c1, v)], field]).whereClause =
          "WHERE " ++ c1 ++ " = ? AND " ++ c ++ " IN ("
            ++ Join (List.replicate es.length "?") "," ++ ")"
      ∧ (q.Where [[(c1, v)], field]).args = some (q.args.getD [] ++ v :: es)
      ∧ (q.Set [[(c1, v)], field]).setClause =
          "SET " ++ c1 ++ " = ?, " ++ c ++ " IN ("
            ++ Join (List.replicate es.length "?") "," ++ ")"
      ∧ (q.Set [[(c1, v)], field]).args = some (q.args.getD [] ++ v :: es) := by
  have hwv : ∀ (sb : String) (args : List Value), writeValue (sb, args) field =
      (sb ++ c ++ " IN (" ++ Join (List.replicate es.length "?") "," ++ ")", args ++ es) :=
    fun sb args => writeValueLoop_seq field c es field hfield sb args
  have hsc := fun (sb : String) (args : List Value) => writeValue_scalar c1 v sb args hc1 hv
  refine ⟨hwv sb args, ?_, ?_, ?_, ?_, ?_, ?_, ?_, ?_⟩
  · simp [SQLQuery.Where, writePlaceholder, writeFields, hwv]
  · simp [SQLQuery.Where, writePlaceholder, writeFields, hwv]
  · simp [SQLQuery.Set, writePlaceholder, writeFields, hwv]
  · simp [SQLQuery.Set, writePlaceholder, writeFields, hwv]
  · simp [SQLQuery.Where, writePlaceholder, writeFields, hwv, hsc]
    apply String.ext
    simp [String.data_append]
  · simp [SQLQuery.Where, writePlaceholder, writeFields, hwv, hsc, goAppend]
  · simp [SQLQuery.Set, writePlaceholder, writeFields, hwv, hsc]
    apply String.ext
    simp [String.data_append]
  · simp [SQLQuery.Set, writePlaceholder, writeFields, hwv, hsc, goAppend]

/-- Witness of C4 on the COUNT query of the test suite that mixes a scalar
condition with a three-element sequence. -/
theorem seq_field_rendering_witness :
    writeValue ("", [])
        [("col2", Value.seq [Value.str "val2", Value.str "val3", Value.str "val4"])] =
        ("col2 IN (?,?,?)", [Value.str "val2", Value.str "val3", Value.str "val4"])
      ∧ (((Count "alias").From "table_name").Where
          [[("col2", Value.seq [Value.str "val2", Value.str "val3", Value.str "val4"])]]).whereClause =
          "WHERE col2 IN (?,?,?)"
      ∧ (((Count "alias").From "table_name").Where
          [[("col2", Value.seq [Value.str "val2", Value.str "val3", Value.str "val4"])]]).args =
          some [Value.str "val2", Value.str "val3", Value.str "val4"]
      ∧ (((Count "alias").From "table_name").Set
          [[("col2", Value.seq [Value.str "val2", Value.str "val3", Value.str "val4"])]]).setClause =
          "SET col2 IN (?,?,?)"
      ∧ (((Count "alias").From "table_name").Set
          [[("col2", Value.seq [Value.str "val2", Value.str "val3", Value.str "val4"])]]).args =
          some [Value.str "val2", Value.str "val3", Value.str "val4"]
      ∧ (((Count "alias").From "table_name").Where
          [[("col1", Value.str "val1")],
           [("col2", Value.seq [Value.str "val2", Value.str "val3", Value.str "val4"])]]).whereClause =
          "WHERE col1 = ? AND col2 IN (?,?,?)"
      ∧ (((Count "alias").From "table_name").Where
          [[("col1", Value.str "val1")],
           [("col2", Value.seq [Value.str "val2", Value.str "val3", Value.str "val4"])]]).args =
          some [Value.str "val1", Value.str "val2", Value.str "val3", Value.str "val4"]
      ∧ (((Count "alias").From "table_name").Set
          [[("col1", Value.str "val1")],
           [("col2", Value.seq [Value.str "val2", Value.str "val3", Value.str "val4"])]]).setClause =
          "SET col1 = ?, col2 IN (?,?,?)"
      ∧ (((Count "alias").From "table_name").Set
          [[("col1", Value.str "val1")],
           [("col2", Value.seq [Value.str "val2", Value.str "val3", Value.str "val4"])]]).args =
          some [Value.str "val1", Value.str "val2", Value.str "val3", Value.str "val4"] :=
  seq_field_rendering "col2" [Value.str "val2", Value.str "val3", Value.str "val4"]
    [("col2", Value.seq [Value.str "val2", Value.str "val3", Value.str "val4"])] rfl
    "" [] ((Count "alias").From "table_name") "col1" (Value.str "val1") (by decide) rfl

/-! ## Failure and no-op calls -/

/-- C7: `Generate` fails exactly when no shape holds.  Either the INSERT
clause is empty, UPDATE and SET are not both populated, SELECT/COUNT and FROM
are not both populated, and the result is the empty statement, nil arguments
and `ErrInvalidSQLStatement`; or one of the three shapes holds and the error
is nil. -/
theorem generate_fails_iff_no_shape (q : SQLQuery) :
    (q.Generate = ("", none, some SQLError.ErrInvalidSQLStatement)
        ∧ (q.insertClause = ""
          ∧ ¬ (q.updateClause ≠ "" ∧ q.setClause ≠ "")
          ∧ ¬ (q.selectClause ≠ "" ∧ q.fromClause ≠ "")))
      ∨ (q.Generate.2.2 = none
        ∧ ¬ (q.insertClause = ""
          ∧ ¬ (q.updateClause ≠ "" ∧ q.setClause ≠ "")
          ∧ ¬ (q.selectClause ≠ "" ∧ q.fromClause ≠ ""))) := by
  unfold SQLQuery.Generate
  by_cases hi : q.insertClause = ""
  · by_cases hu : q.updateClause ≠ "" ∧ q.setClause ≠ ""
    · right
      rw [if_neg (not_not.mpr hi), if_pos hu]
      refine ⟨?_, fun h => h.2.1 hu⟩
      by_cases hw : q.whereClause = "" <;> simp [hw]
    · by_cases hs : q.selectClause ≠ "" ∧ q.fromClause ≠ ""
      · right
        rw [if_neg (not_not.mpr hi), if_neg hu, if_pos hs]
        exact ⟨rfl, fun h => h.2.2 hs⟩
      · left
        rw [if_neg (not_not.mpr hi), if_neg hu, if_neg hs]
        exact ⟨rfl, hi, hu, hs⟩
  · right
    rw [if_pos hi]
    exact ⟨rfl, fun h => hi h.1⟩

/-- C9: `Where()` and `Set()` without fields and `From("")` return the builder
as it was, every clause and the arguments unchanged, so `Generate` after the
call returns what it returns without it. -/
theorem empty_calls_are_noops (q : SQLQuery) :
    q.Where [] = q ∧ q.Set [] = q ∧ q.From "" = q
      ∧ (q.Where []).Generate = q.Generate
      ∧ (q.Set []).Generate = q.Generate
      ∧ (q.From "").Generate = q.Generate := by
  have hw : q.Where [] = q := by simp [SQLQuery.Where]
  have hs : q.Set [] = q := by simp [SQLQuery.Set]
  have hf : q.From "" = q := by simp [SQLQuery.From]
  exact ⟨hw, hs, hf, by rw [hw], by rw [hs], by rw [hf]⟩

/-! ## The writers append to the text and arguments they are given -/

theorem writeValueLoop_frame (field : SQLField) (entries : List (String × Value))
    (sb : String) (args : List Value) :
    writeValueLoop field entries (sb, args) =
      (sb ++ (writeValueLoop field entries ("", [])).1,
        args ++ (writeValueLoop field entries ("", [])).2) := by
  induction entries generalizing sb args with
  | nil => simp [writeValueLoop]
  | cons kv rest ih =>
    obtain ⟨k, v⟩ := kv
    by_cases hk : k = "operator"
    · simp only [writeValueLoop, hk, if_true]
      exact ih sb args
    · cases v <;>
        simp only [writeValueLoop, hk, if_false, writeElems_eq] <;>
        first
          | (rw [ih]
             conv_rhs => rw [ih]
             simp [String.append_assoc])
          | simp [String.append_assoc]

theorem writeValue_frame (field : SQLField) (sb : String) (args : List Value) :
    writeValue (sb, args) field =
      (sb ++ (writeValue ("", []) field).1, args ++ (writeValue ("", []) field).2) :=
  writeValueLoop_frame field field sb args

theorem writeFields_frame (sep : String) (fields : List SQLField)
    (sb : String) (args : List Value) :
    writeFields sep fields (sb, args) =
      (sb ++ (writeFields sep fields ("", [])).1,
        args ++ (writeFields sep fields ("", [])).2) := by
  induction fields generalizing sb args with
  | nil => simp [writeFields]
  | cons f rest ih =>
    cases rest with
    | nil =>
      simp only [writeFields]
      exact writeValue_frame f sb args
    | cons f2 rest2 =>
      simp only [writeFields]
      rw [ih, writeValue_frame f sb args]
      conv_rhs => rw [ih]
      simp [String.append_assoc]

theorem writePlaceholder_frame (sb sep : String) (fields : List SQLField) :
    writePlaceholder sb sep fields =
      (sb ++ (writePlaceholder "" sep fields).1, (writePlaceholder "" sep fields).2) := by
  unfold writePlaceholder
  rw [writeFields_frame]
  simp

/-- On a non-empty list of fields, `Where` overwrites the WHERE clause and
appends the arguments the writer returns. -/
theorem Where_nonempty (q : SQLQuery) (fields : List SQLField) (h : fields ≠ []) :
    q.Where fields =
      { q with
        args := goAppend q.args (writePlaceholder "" " AND " fields).2
        whereClause := "WHERE " ++ (writePlaceholder "" " AND " fields).1 } := by
  have hlen : ¬ fields.length = 0 := by simpa using h
  unfold SQLQuery.Where
  rw [if_neg hlen]
  simp only [String.empty_append]
  rw [writePlaceholder_frame]

/-- On a non-empty list of fields, `Set` overwrites the SET clause and appends
the arguments the writer returns. -/
theorem Set_nonempty (q : SQLQuery) (fields : List SQLField) (h : fields ≠ []) :
    q.Set fields =
      { q with
        args := goAppend q.args (writePlaceholder "" ", " fields).2
        setClause := "SET " ++ (writePlaceholder "" ", " fields).1 } := by
  have hlen : ¬ fields.length = 0 := by simpa using h
  unfold SQLQuery.Set
  rw [if_neg hlen]
  simp only [String.empty_append]
  rw [writePlaceholder_frame]

/-! ## Clause order -/

/-- The four calls `From(t)`, `Where(ws)`, `Offset(o)`, `Limit(l)` write
different parts of the builder, so any two of them commute. -/
theorem select_calls_commute (t : String) (ws : List SQLField) (o l : Int)
    (x y : Call)
    (hx : x ∈ [Call.From t, Call.Where ws, Call.Offset o, Call.Limit l])
    (hy : y ∈ [Call.From t, Call.Where ws, Call.Offset o, Call.Limit l])
    (z : SQLQuery) :
    Call.apply (Call.apply z x) y = Call.apply (Call.apply z y) x := by
  simp only [List.mem_cons, List.mem_singleton, List.not_mem_nil, or_false] at hx hy
  rcases hx with rfl | rfl | rfl | rfl <;> rcases hy with rfl | rfl | rfl | rfl <;>
    first
      | rfl
      | (simp only [Call.apply, SQLQuery.From, SQLQuery.Where, SQLQuery.Offset,
          SQLQuery.Limit]
         split <;> split <;> rfl)
      | (simp only [Call.apply, SQLQuery.From, SQLQuery.Where, SQLQuery.Offset,
          SQLQuery.Limit]
         split <;> rfl)

/-- C8: from `Select(cols...)` or `Count(alias)`, the calls `From(t)`,
`Where(ws)`, `Offset(o)` and `Limit(l)` made once each in any order give the
same statement and arguments: the fragments stand in the order SELECT, FROM,
WHERE, OFFSET, LIMIT, and the arguments are those of the WHERE fields. -/
theorem clause_order_independent (q0 : SQLQuery) (cols : List String) (aliasName : String)
    (t : String) (ws : List SQLField) (o l : Int) (calls : List Call)
    (hq : q0 = Select cols ∨ q0 = Count aliasName)
    (ht : t ≠ "") (hw : ws ≠ [])
    (hp : List.Perm calls [Call.From t, Call.Where ws, Call.Offset o, Call.Limit l]) :
    (runCalls q0 calls).Generate =
      (q0.selectClause ++ " FROM " ++ t ++ " WHERE " ++ (writePlaceholder "" " AND " ws).1
          ++ " OFFSET " ++ itoa o ++ " LIMIT " ++ itoa l,
        some (writePlaceholder "" " AND " ws).2, none) := by
  have horder : runCalls q0 calls =
      runCalls q0 [Call.From t, Call.Where ws, Call.Offset o, Call.Limit l] := by
    unfold runCalls
    exact (List.Perm.foldl_eq' hp.symm
      (fun x hx y hy z => select_calls_commute t ws o l x y hx hy z) q0).symm
  have hfne : "FROM " ++ t ≠ "" := str_append_ne_empty_left _ (by decide)
  have hwne : "WHERE " ++ (writePlaceholder "" " AND " ws).1 ≠ "" :=
    str_append_ne_empty_left _ (by decide)
  have hone : "OFFSET " ++ itoa o ≠ "" := str_append_ne_empty_left _ (by decide)
  have hlne : "LIMIT " ++ itoa l ≠ "" := str_append_ne_empty_left _ (by decide)
  have hsne : q0.selectClause ≠ "" := by
    rcases hq with rfl | rfl
    · exact Select_selectClause_ne cols
    · exact str_append_ne_empty_left _ (by decide)
  have hi : q0.insertClause = "" := by rcases hq with rfl | rfl <;> rfl
  have hu : q0.updateClause = "" := by rcases hq with rfl | rfl <;> rfl
  have ha : q0.args = some [] := by rcases hq with rfl | rfl <;> rfl
  have hargs : goAppend (some []) (writePlaceholder "" " AND " ws).2 =
      some (writePlaceholder "" " AND " ws).2 := by
    cases (writePlaceholder "" " AND " ws).2 <;> simp [goAppend]
  have hstate : runCalls q0 [Call.From t, Call.Where ws, Call.Offset o, Call.Limit l] =
      { q0 with
        args := some (writePlaceholder "" " AND " ws).2
        fromClause := "FROM " ++ t
        whereClause := "WHERE " ++ (writePlaceholder "" " AND " ws).1
        offsetClause := "OFFSET " ++ itoa o
        limitClause := "LIMIT " ++ itoa l } := by
    simp [runCalls, Call.apply, SQLQuery.From, ht, Where_nonempty _ ws hw, SQLQuery.Offset,
      SQLQuery.Limit, ha, hargs]
  rw [horder, hstate, generate_select_shape _ (by exact hi) (by exact hu) (by exact hsne)
    (by exact hfne)]
  simp only [hwne, hone, hlne, ne_eq, not_false_eq_true, if_true]
  refine Prod.ext ?_ rfl
  apply String.ext
  simp [String.data_append]

/-- Witness of C8: the four calls in reverse order on `Select("col1")`. -/
theorem clause_order_independent_witness :
    (runCalls (Select ["col1"])
        [Call.Limit 10, Call.Offset 1,
          Call.Where [[("col1", Value.str "val1")], [("col2", Value.str "val2")]],
          Call.From "table_name"]).Generate =
      ("SELECT col1 FROM table_name WHERE col1 = ? AND col2 = ? OFFSET 1 LIMIT 10",
        some [Value.str "val1", Value.str "val2"], none) :=
  clause_order_independent (Select ["col1"]) ["col1"] "" "table_name"
    [[("col1", Value.str "val1")], [("col2", Value.str "val2")]] 1 10
    [Call.Limit 10, Call.Offset 1,
      Call.Where [[("col1", Value.str "val1")], [("col2", Value.str "val2")]],
      Call.From "table_name"]
    (Or.inl rfl) (by decide) (by simp)
    (List.reverse_perm
      [Call.From "table_name",
        Call.Where [[("col1", Value.str "val1")], [("col2", Value.str "val2")]],
        Call.Offset 1, Call.Limit 10])

/-! ## Arguments against placeholders -/

theorem countPlaceholders_append (a b : String) :
    countPlaceholders (a ++ b) = countPlaceholders a + countPlaceholders b := by
  simp [countPlaceholders, String.data_append, List.count_append]

theorem countPlaceholders_marks (n : Nat) :
    countPlaceholders (Join (List.replicate n "?") ",") = n := by
  induction n with
  | zero => rfl
  | succ m ih =>
    cases m with
    | zero => rfl
    | succ k =>
      have hstep : Join (List.replicate (k + 1 + 1) "?") "," =
          "?" ++ "," ++ Join (List.replicate (k + 1) "?") "," := rfl
      rw [hstep, countPlaceholders_append, ih]
      have hlit : countPlaceholders ("?" ++ ",") = 1 := rfl
      omega

/-- One call of the writer keeps placeholders and arguments aligned: on fields
of one column each, scalar or sequence, with no `?` in the column names or the
separator, the text written has as many `?` as arguments are returned. -/
theorem writeFields_aligned (sep : String) (fields : List SQLField)
    (hsep : countPlaceholders sep = 0)
    (hf : ∀ f ∈ fields, ∃ c v, f = [(c, v)] ∧ c ≠ "operator" ∧ countPlaceholders c = 0) :
    countPlaceholders (writeFields sep fields ("", [])).1 =
      (writeFields sep fields ("", [])).2.length := by
  have hone : ∀ f ∈ fields, countPlaceholders (writeValue ("", []) f).1 =
      (writeValue ("", []) f).2.length := by
    intro f hmem
    obtain ⟨c, v, rfl, hc, hq⟩ := hf f hmem
    cases hv : v.isSeq
    · rw [writeValue_scalar c v "" [] hc hv]
      simp only [countPlaceholders_append, hq]
      rfl
    · cases v <;> simp [Value.isSeq] at hv
      rename_i es
      have hfil : List.filter (fun kv : String × Value => decide (kv.1 ≠ "operator"))
          [(c, Value.seq es)] = [(c, Value.seq es)] := by
        simp [List.filter_cons, hc]
      have hw := writeValueLoop_seq [(c, Value.seq es)] c es [(c, Value.seq es)] hfil "" []
      unfold writeValue
      rw [hw]
      simp only [countPlaceholders_append, hq, countPlaceholders_marks]
      have h1 : countPlaceholders "" = 0 := rfl
      have h2 : countPlaceholders " IN (" = 0 := rfl
      have h3 : countPlaceholders ")" = 0 := rfl
      simp [h1, h2, h3]
  induction fields with
  | nil => rfl
  | cons f rest ih =>
    cases rest with
    | nil =>
      simp only [writeFields]
      exact hone f (List.mem_cons_self _ _)
    | cons f2 rest2 =>
      have ih2 := ih (fun g hg => hf g (List.mem_cons_of_mem _ hg))
        (fun g hg => hone g (List.mem_cons_of_mem _ hg))
      have h1 := hone f (List.mem_cons_self _ _)
      simp only [writeFields]
      rw [writeFields_frame]
      simp only [countPlaceholders_append, List.length_append, hsep, ih2, h1]
      omega

/-- C5: a second `Where` call overwrites the WHERE clause but keeps the
arguments of the first: `Select().From("t").Where({a: "1"}).Where({b: "2"})`
generates a statement with one `?` and two arguments. -/
theorem repeated_where_keeps_stale_args :
    ((((Select []).From "t").Where [[("a", Value.str "1")]]).Where
        [[("b", Value.str "2")]]).Generate =
        ("SELECT * FROM t WHERE b = ?", some [Value.str "1", Value.str "2"], none)
      ∧ countPlaceholders ((((Select []).From "t").Where [[("a", Value.str "1")]]).Where
          [[("b", Value.str "2")]]).Generate.1 = 1
      ∧ sliceLen ((((Select []).From "t").Where [[("a", Value.str "1")]]).Where
          [[("b", Value.str "2")]]).Generate.2.1 = 2 :=
  ⟨rfl, rfl, rfl⟩

/-- C6: with `Where` called before `Set` the statement is still
`UPDATE t SET a = ? WHERE b = ?`, but the arguments come in call order, the
WHERE value before the SET value; with `Set` first they follow the
placeholders. -/
theorem where_before_set_misorders_args :
    (((Update "t").Where [[("b", Value.str "2")]]).Set [[("a", Value.str "1")]]).Generate =
        ("UPDATE t SET a = ? WHERE b = ?", some [Value.str "2", Value.str "1"], none)
      ∧ (((Update "t").Set [[("a", Value.str "1")]]).Where [[("b", Value.str "2")]]).Generate =
        ("UPDATE t SET a = ? WHERE b = ?", some [Value.str "1", Value.str "2"], none)
      ∧ (((Update "t").Where [[("b", Value.str "2")]]).Set [[("a", Value.str "1")]]).Generate.2.1
        ≠ some [Value.str "1", Value.str "2"] := by
  refine ⟨rfl, rfl, ?_⟩
  intro h
  have h2 : (some [Value.str "2", Value.str "1"] : Option (List Value))
      = some [Value.str "1", Value.str "2"] := h
  simp at h2

/-- C10: `Update` leaves the argument slice nil, and a `Set` that binds no value
appends nothing to it: `Update("t").Set({c: []})` generates
`UPDATE t SET c IN ()` with nil arguments, where `Select().From("t")` returns
the empty, allocated slice. -/
theorem update_without_values_returns_nil_args :
    ((Update "t").Set [[("c", Value.seq [])]]).Generate = ("UPDATE t SET c IN ()", none, none)
      ∧ ((Select []).From "t").Generate = ("SELECT * FROM t", some [], none) :=
  ⟨rfl, rfl⟩

/-! ## Clauses no chained call writes -/

theorem apply_keeps_constructor_clauses (q : SQLQuery) (c : Call) :
    (Call.apply q c).insertClause = q.insertClause
      ∧ (Call.apply q c).selectClause = q.selectClause
      ∧ (Call.apply q c).updateClause = q.updateClause := by
  cases c <;>
    simp only [Call.apply, SQLQuery.Set, SQLQuery.From, SQLQuery.Where, SQLQuery.Offset,
      SQLQuery.Limit] <;>
    (try split) <;>
    first
      | exact ⟨rfl, rfl, rfl⟩
      | exact ⟨trivial, trivial, trivial⟩

theorem runCalls_keeps_constructor_clauses (calls : List Call) (q : SQLQuery) :
    (runCalls q calls).insertClause = q.insertClause
      ∧ (runCalls q calls).selectClause = q.selectClause
      ∧ (runCalls q calls).updateClause = q.updateClause := by
  induction calls generalizing q with
  | nil => exact ⟨rfl, rfl, rfl⟩
  | cons c rest ih =>
    have h := apply_keeps_constructor_clauses q c
    have h2 := ih (Call.apply q c)
    simp only [runCalls, List.foldl_cons] at h2 ⊢
    exact ⟨h2.1.trans h.1, h2.2.1.trans h.2.1, h2.2.2.trans h.2.2⟩

theorem Insert_insertClause_ne (t : String) (fs : List SQLField) (ht : t ≠ "")
    (hf : fs ≠ []) : (Insert t fs).insertClause ≠ "" := by
  have hlen : ¬ (t = "" ∨ fs.length = 0) := by simp [ht, hf]
  unfold Insert
  rw [if_neg hlen]
  simp only [String.empty_append, String.append_assoc]
  exact str_append_ne_empty_left _ (by decide)

/-- C11: after `Insert(t, fs)` with a non-empty table name and at least one
field, whatever chain of `From`, `Where`, `Set`, `Offset` and `Limit` calls
follows, `Generate` succeeds and returns the statement it returned right after
`Insert`, the INSERT clause. -/
theorem insert_always_wins (t : String) (fs : List SQLField) (calls : List Call)
    (ht : t ≠ "") (hf : fs ≠ []) :
    (runCalls (Insert t fs) calls).Generate.1 = (Insert t fs).Generate.1
      ∧ (runCalls (Insert t fs) calls).Generate.2.2 = none
      ∧ (Insert t fs).Generate.2.2 = none
      ∧ (Insert t fs).Generate.1 = (Insert t fs).insertClause := by
  have hne := Insert_insertClause_ne t fs ht hf
  have hkeep := (runCalls_keeps_constructor_clauses calls (Insert t fs)).1
  have hne2 : (runCalls (Insert t fs) calls).insertClause ≠ "" := by rw [hkeep]; exact hne
  have h1 : (Insert t fs).Generate = ((Insert t fs).insertClause, (Insert t fs).args, none) := by
    unfold SQLQuery.Generate
    rw [if_pos hne]
  have h2 : (runCalls (Insert t fs) calls).Generate =
      ((runCalls (Insert t fs) calls).insertClause, (runCalls (Insert t fs) calls).args,
        none) := by
    unfold SQLQuery.Generate
    rw [if_pos hne2]
  rw [h1, h2]
  exact ⟨hkeep, rfl, rfl, rfl⟩

/-- Witness of C11: the insert of the test suite followed by all five
mutators. -/
theorem insert_always_wins_witness :
    (runCalls (Insert "table_name" [[("col1", Value.str "val1")]])
        [Call.From "other", Call.Where [[("a", Value.int 1)]], Call.Set [[("b", Value.int 2)]],
          Call.Offset 1, Call.Limit 10]).Generate.1 =
        (Insert "table_name" [[("col1", Value.str "val1")]]).Generate.1
      ∧ (runCalls (Insert "table_name" [[("col1", Value.str "val1")]])
        [Call.From "other", Call.Where [[("a", Value.int 1)]], Call.Set [[("b", Value.int 2)]],
          Call.Offset 1, Call.Limit 10]).Generate.2.2 = none
      ∧ (Insert "table_name" [[("col1", Value.str "val1")]]).Generate.2.2 = none
      ∧ (Insert "table_name" [[("col1", Value.str "val1")]]).Generate.1 =
        "INSERT INTO table_name ( col1 ) VALUES ( ? )" :=
  insert_always_wins "table_name" [[("col1", Value.str "val1")]]
    [Call.From "other", Call.Where [[("a", Value.int 1)]], Call.Set [[("b", Value.int 2)]],
      Call.Offset 1, Call.Limit 10] (by decide) (by simp)

/-- C17: a builder from `Insert` with an empty table name or without fields
fails to generate after every chain of `From`, `Where`, `Set`, `Offset` and
`Limit` calls: the INSERT, SELECT and UPDATE clauses stay empty, and the
result is the empty statement, nil arguments and `ErrInvalidSQLStatement`. -/
theorem empty_insert_never_generates (t : String) (fs : List SQLField) (calls : List Call)
    (h : t = "" ∨ fs = []) :
    (runCalls (Insert t fs) calls).Generate =
        ("", none, some SQLError.ErrInvalidSQLStatement)
      ∧ (runCalls (Insert t fs) calls).insertClause = ""
      ∧ (runCalls (Insert t fs) calls).selectClause = ""
      ∧ (runCalls (Insert t fs) calls).updateClause = "" := by
  have hcond : t = "" ∨ fs.length = 0 := by
    rcases h with h | h
    · exact Or.inl h
    · exact Or.inr (by simp [h])
  have hq : Insert t fs = { insertClause := "" } := by
    unfold Insert
    rw [if_pos hcond]
  obtain ⟨hi, hs, hu⟩ := runCalls_keeps_constructor_clauses calls (Insert t fs)
  rw [hq] at hi hs hu
  rw [hq]
  refine ⟨?_, hi, hs, hu⟩
  unfold SQLQuery.Generate
  simp [hi, hs, hu]

/-- Witness of C17: `Insert("")` with a field, then all five mutators. -/
theorem empty_insert_never_generates_witness :
    (runCalls (Insert "" [[("col1", Value.str "val1")]])
        [Call.From "t", Call.Where [[("a", Value.int 1)]], Call.Set [[("b", Value.int 2)]],
          Call.Offset 1, Call.Limit 10]).Generate =
        ("", none, some SQLError.ErrInvalidSQLStatement)
      ∧ (runCalls (Insert "" [[("col1", Value.str "val1")]])
        [Call.From "t", Call.Where [[("a", Value.int 1)]], Call.Set [[("b", Value.int 2)]],
          Call.Offset 1, Call.Limit 10]).insertClause = ""
      ∧ (runCalls (Insert "" [[("col1", Value.str "val1")]])
        [Call.From "t", Call.Where [[("a", Value.int 1)]], Call.Set [[("b", Value.int 2)]],
          Call.Offset 1, Call.Limit 10]).selectClause = ""
      ∧ (runCalls (Insert "" [[("col1", Value.str "val1")]])
        [Call.From "t", Call.Where [[("a", Value.int 1)]], Call.Set [[("b", Value.int 2)]],
          Call.Offset 1, Call.Limit 10]).updateClause = "" :=
  empty_insert_never_generates "" [[("col1", Value.str "val1")]]
    [Call.From "t", Call.Where [[("a", Value.int 1)]], Call.Set [[("b", Value.int 2)]],
      Call.Offset 1, Call.Limit 10] (Or.inl rfl)

/-! ## COUNT statements -/

/-- C12: for every alias, a non-empty table name and single scalar columns
without operator, `Count(a).From(t).Generate()` returns
`SELECT COUNT(*) AS a FROM t` with the empty argument slice, and with
`.Where(w1..wm)` chained the statement continues with ` WHERE d1 = ? AND ..`
and the arguments are the values of the conditions. -/
theorem count_generate (a t : String) (ws : List (String × Value))
    (ht : t ≠ "") (hw : ws ≠ [])
    (hk : ∀ w ∈ ws, w.1 ≠ "operator" ∧ w.2.isSeq = false) :
    ((Count a).From t).Generate =
        ("SELECT COUNT(*) AS " ++ a ++ " FROM " ++ t, some [], none)
      ∧ (((Count a).From t).Where (ws.map fun w => [w])).Generate =
        ("SELECT COUNT(*) AS " ++ a ++ " FROM " ++ t
            ++ " WHERE " ++ Join (ws.map fun w => w.1 ++ " = ?") " AND ",
          some (ws.map Prod.snd), none) := by
  have hfrom : (Count a).From t = { Count a with fromClause := "FROM " ++ t } := by
    simp [SQLQuery.From, ht]
  have hfne : "FROM " ++ t ≠ "" := str_append_ne_empty_left _ (by decide)
  have hwne : "WHERE " ++ Join (ws.map fun w => w.1 ++ " = ?") " AND " ≠ "" :=
    str_append_ne_empty_left _ (by decide)
  have hsel : (Count a).selectClause = "SELECT COUNT(*) AS " ++ a := by
    simp [Count]
  have hsne : (Count a).selectClause ≠ "" := by
    rw [hsel]
    exact str_append_ne_empty_left _ (by decide)
  have hci : (Count a).insertClause = "" := rfl
  have hcu : (Count a).updateClause = "" := rfl
  have hcw : (Count a).whereClause = "" := rfl
  have hco : (Count a).offsetClause = "" := rfl
  have hcl : (Count a).limitClause = "" := rfl
  have hca : (Count a).args = some [] := rfl
  constructor
  · rw [generate_select_shape]
    · simp [hfrom, hcw, hco, hcl, hca, hsel, String.append_assoc]
      apply String.ext
      simp [String.data_append]
    · simp [hfrom, hci]
    · simp [hfrom, hcu]
    · simp [hfrom, hsne]
    · simp [hfrom, hfne]
  · rw [generate_select_shape]
    · simp [hfrom, Where_scalars _ ws hw hk, hco, hcl, hca, hsel, hwne, String.append_assoc]
      apply String.ext
      simp [String.data_append]
    · simp [hfrom, Where_scalars _ ws hw hk, hci]
    · simp [hfrom, Where_scalars _ ws hw hk, hcu]
    · simp [hfrom, Where_scalars _ ws hw hk, hsne]
    · simp [hfrom, Where_scalars _ ws hw hk, hfne]

/-- Witness of C12 on the COUNT query of the test suite. -/
theorem count_generate_witness :
    ((Count "alias").From "table_name").Generate =
        ("SELECT COUNT(*) AS alias FROM table_name", some [], none)
      ∧ (((Count "alias").From "table_name").Where [[("col1", Value.str "val1")]]).Generate =
        ("SELECT COUNT(*) AS alias FROM table_name WHERE col1 = ?",
          some [Value.str "val1"], none) :=
  count_generate "alias" "table_name" [("col1", Value.str "val1")]
    (by decide) (by simp) (by decide)

/-! ## Operator annotations -/

theorem perm_pair_cases {α : Type} {a b : α} {l : List α} (h : l.Perm [a, b]) :
    l = [a, b] ∨ l = [b, a] := by
  have hlen : l.length = 2 := by simpa using h.length_eq
  match l, hlen with
  | [x, y], _ =>
    have hx : x ∈ [a, b] := h.subset (List.mem_cons_self _ _)
    simp only [List.mem_cons, List.mem_singleton, List.not_mem_nil, or_false] at hx
    rcases hx with rfl | rfl
    · have h2 : [y].Perm [b] := List.Perm.cons_inv h
      have h3 := List.perm_singleton.mp h2
      left
      rw [h3]
    · have h1 : [x, y].Perm [x, a] := h.trans (List.Perm.swap x a [])
      have h2 : [y].Perm [a] := List.Perm.cons_inv h1
      have h3 := List.perm_singleton.mp h2
      right
      rw [h3]

theorem Lt_single (c : String) (v : Value) (hc : c ≠ "operator") :
    SQLField.Lt [(c, v)] = [(c, v), ("operator", Value.str "<")] := by
  simp [SQLField.Lt, SQLField.put, hc]

theorem Gte_single (c : String) (v : Value) (hc : c ≠ "operator") :
    SQLField.Gte [(c, v)] = [(c, v), ("operator", Value.str ">=")] := by
  simp [SQLField.Gte, SQLField.put, hc]

/-- A scalar column with a string operator entry, in either iteration order,
is written as `column operator ?` and binds the value of the column. -/
theorem writeValue_operator (c : String) (v : Value) (sym : String) (f : SQLField)
    (hc : c ≠ "operator") (hv : v.isSeq = false)
    (hf : f.Perm [(c, v), ("operator", Value.str sym)])
    (sb : String) (args : List Value) :
    writeValue (sb, args) f = (sb ++ c ++ " " ++ sym ++ " ?", args ++ [v]) := by
  have hne : ("operator" == c) = false := by
    simpa using fun h => hc h.symm
  rcases perm_pair_cases hf with rfl | rfl
  · have hlook : SQLField.get [(c, v), ("operator", Value.str sym)] "operator"
        = some (Value.str sym) := by
      simp [SQLField.get, List.lookup, hne]
    cases v <;>
      simp_all [writeValue, writeValueLoop, Value.isSeq, fmtV, String.append_assoc]
  · have hlook : SQLField.get [("operator", Value.str sym), (c, v)] "operator"
        = some (Value.str sym) := by
      simp [SQLField.get, List.lookup]
    cases v <;>
      simp_all [writeValue, writeValueLoop, Value.isSeq, fmtV, String.append_assoc]

/-- C13: for a field `{c: v}` with `c` not the operator key and `v` a scalar,
`Where` and `Set` write `field.Lt()` as `c < ?`, `field.Gte()` as `c >= ?` and
the bare field as `c = ?`, in every iteration order of the annotated map, and
append exactly `v`; so `Select().From(t).Where(f)` on a non-empty table name
generates `SELECT * FROM t WHERE c sym ?` with the arguments `[v]`.  Here `f`
and `sym` range over the three cases. -/
theorem operator_rendering (c : String) (v : Value) (f : SQLField) (sym : String)
    (sb : String) (args : List Value) (q : SQLQuery) (t : String)
    (hc : c ≠ "operator") (hv : v.isSeq = false) (ht : t ≠ "")
    (hcase : (f.Perm (SQLField.Lt [(c, v)]) ∧ sym = "<")
      ∨ (f.Perm (SQLField.Gte [(c, v)]) ∧ sym = ">=")
      ∨ (f = [(c, v)] ∧ sym = "=")) :
    writeValue (sb, args) f = (sb ++ c ++ " " ++ sym ++ " ?", args ++ [v])
      ∧ (q.Where [f]).whereClause = "WHERE " ++ c ++ " " ++ sym ++ " ?"
      ∧ (q.Where [f]).args = some (q.args.getD [] ++ [v])
      ∧ (q.Set [f]).setClause = "SET " ++ c ++ " " ++ sym ++ " ?"
      ∧ (q.Set [f]).args = some (q.args.getD [] ++ [v])
      ∧ (((Select []).From t).Where [f]).Generate =
          ("SELECT * FROM " ++ t ++ " WHERE " ++ c ++ " " ++ sym ++ " ?", some [v], none) := by
  have hwv : ∀ (sb : String) (args : List Value),
      writeValue (sb, args) f = (sb ++ c ++ " " ++ sym ++ " ?", args ++ [v]) := by
    intro sb args
    rcases hcase with ⟨hp, rfl⟩ | ⟨hp, rfl⟩ | ⟨rfl, rfl⟩
    · rw [Lt_single c v hc] at hp
      exact writeValue_operator c v "<" f hc hv hp sb args
    · rw [Gte_single c v hc] at hp
      exact writeValue_operator c v ">=" f hc hv hp sb args
    · rw [writeValue_scalar c v sb args hc hv]
      refine Prod.ext ?_ rfl
      apply String.ext
      simp [String.data_append]
  have hwhere : q.Where [f] =
      { q with
        args := some (q.args.getD [] ++ [v])
        whereClause := "WHERE " ++ c ++ " " ++ sym ++ " ?" } := by
    simp [SQLQuery.Where, writePlaceholder, writeFields, hwv, goAppend]
  have hset : q.Set [f] =
      { q with
        args := some (q.args.getD [] ++ [v])
        setClause := "SET " ++ c ++ " " ++ sym ++ " ?" } := by
    simp [SQLQuery.Set, writePlaceholder, writeFields, hwv, goAppend]
  have hsel : (((Select []).From t).Where [f]) =
      { (Select []).From t with
        args := some ((((Select []).From t).args).getD [] ++ [v])
        whereClause := "WHERE " ++ c ++ " " ++ sym ++ " ?" } := by
    simp [SQLQuery.Where, writePlaceholder, writeFields, hwv, goAppend]
  have hfrom : (Select []).From t = { Select [] with fromClause := "FROM " ++ t } := by
    simp [SQLQuery.From, ht]
  have hfne : "FROM " ++ t ≠ "" := str_append_ne_empty_left _ (by decide)
  have hwne : "WHERE " ++ c ++ " " ++ sym ++ " ?" ≠ "" := by
    simp only [String.append_assoc]
    exact str_append_ne_empty_left _ (by decide)
  refine ⟨hwv sb args, ?_, ?_, ?_, ?_, ?_⟩
  · rw [hwhere]
  · rw [hwhere]
  · rw [hset]
  · rw [hset]
  · rw [hsel, hfrom, generate_select_shape]
    · simp only [hwne, ne_eq, not_false_eq_true, if_true]
      refine Prod.ext ?_ rfl
      apply String.ext
      simp [String.data_append, Select]
    · rfl
    · rfl
    · exact Select_selectClause_ne []
    · exact hfne

/-- Witness of C13: the annotated map visited operator first. -/
theorem operator_rendering_witness :
    writeValue ("", []) [("operator", Value.str "<"), ("c", Value.int 3)] =
        ("c < ?", [Value.int 3])
      ∧ ((Update "t").Where [[("operator", Value.str "<"), ("c", Value.int 3)]]).whereClause =
        "WHERE c < ?"
      ∧ ((Update "t").Where [[("operator", Value.str "<"), ("c", Value.int 3)]]).args =
        some [Value.int 3]
      ∧ ((Update "t").Set [[("operator", Value.str "<"), ("c", Value.int 3)]]).setClause =
        "SET c < ?"
      ∧ ((Update "t").Set [[("operator", Value.str "<"), ("c", Value.int 3)]]).args =
        some [Value.int 3]
      ∧ (((Select []).From "t").Where
          [[("operator", Value.str "<"), ("c", Value.int 3)]]).Generate =
        ("SELECT * FROM t WHERE c < ?", some [Value.int 3], none) :=
  operator_rendering "c" (Value.int 3) [("operator", Value.str "<"), ("c", Value.int 3)] "<"
    "" [] (Update "t") "t" (by decide) rfl (by decide)
    (Or.inl ⟨List.Perm.swap _ _ _, rfl⟩)

theorem Lt_idempotent (f : SQLField) : SQLField.Lt (SQLField.Lt f) = SQLField.Lt f := by
  by_cases hlen : f.length = 1
  · match f, hlen with
    | [(k, v)], _ =>
      by_cases hk : k = "operator"
      · subst hk
        simp [SQLField.Lt, SQLField.put]
      · rw [Lt_single k v hk]
        simp [SQLField.Lt]
  · have h : SQLField.Lt f = f := by simp [SQLField.Lt, hlen]
    rw [h, h]

theorem Gte_idempotent (f : SQLField) : SQLField.Gte (SQLField.Gte f) = SQLField.Gte f := by
  by_cases hlen : f.length = 1
  · match f, hlen with
    | [(k, v)], _ =>
      by_cases hk : k = "operator"
      · subst hk
        simp [SQLField.Gte, SQLField.put]
      · rw [Gte_single k v hk]
        simp [SQLField.Gte]
  · have h : SQLField.Gte f = f := by simp [SQLField.Gte, hlen]
    rw [h, h]

/-- C14, as the code has it: `Lt()` and `Gte()` return a field with no entry
or with two or more entries unchanged; for a single-entry field whose key is
not the operator key, `f.Lt().Gte()` equals `f.Lt()` and `f.Gte().Lt()` equals
`f.Gte()`; and `Lt` and `Gte` are idempotent on every field. -/
theorem lt_gte_guard (g f : SQLField) (k : String) (v : Value)
    (hg : g.length ≠ 1) (hk : k ≠ "operator") :
    SQLField.Lt g = g ∧ SQLField.Gte g = g
      ∧ SQLField.Gte (SQLField.Lt [(k, v)]) = SQLField.Lt [(k, v)]
      ∧ SQLField.Lt (SQLField.Gte [(k, v)]) = SQLField.Gte [(k, v)]
      ∧ SQLField.Lt (SQLField.Lt f) = SQLField.Lt f
      ∧ SQLField.Gte (SQLField.Gte f) = SQLField.Gte f := by
  refine ⟨by simp [SQLField.Lt, hg], by simp [SQLField.Gte, hg], ?_, ?_,
    Lt_idempotent f, Gte_idempotent f⟩
  · rw [Lt_single k v hk]
    simp [SQLField.Gte]
  · rw [Gte_single k v hk]
    simp [SQLField.Lt]

/-- Witness of C14 as amended: an annotated two-entry field, the column
`{col1: "val1"}` and an arbitrary field for idempotence. -/
theorem lt_gte_guard_witness :
    SQLField.Lt [("col1", Value.str "val1"), ("operator", Value.str "<")] =
        [("col1", Value.str "val1"), ("operator", Value.str "<")]
      ∧ SQLField.Gte [("col1", Value.str "val1"), ("operator", Value.str "<")] =
        [("col1", Value.str "val1"), ("operator", Value.str "<")]
      ∧ SQLField.Gte (SQLField.Lt [("col1", Value.str "val1")]) =
        SQLField.Lt [("col1", Value.str "val1")]
      ∧ SQLField.Lt (SQLField.Gte [("col1", Value.str "val1")]) =
        SQLField.Gte [("col1", Value.str "val1")]
      ∧ SQLField.Lt (SQLField.Lt [("operator", Value.str "x")]) =
        SQLField.Lt [("operator", Value.str "x")]
      ∧ SQLField.Gte (SQLField.Gte [("operator", Value.str "x")]) =
        SQLField.Gte [("operator", Value.str "x")] :=
  lt_gte_guard [("col1", Value.str "val1"), ("operator", Value.str "<")]
    [("operator", Value.str "x")] "col1" (Value.str "val1") (by decide) (by decide)

/-- C14 fails on the single-entry field `{operator: "x"}`: `Lt()` sets its one
entry to `<`, the field still has one entry, and `Gte()` sets it to `>=`, so
`f.Lt().Gte()` differs from `f.Lt()`; likewise `f.Gte().Lt()` from
`f.Gte()`. -/
theorem lt_gte_on_operator_only_field :
    SQLField.Lt [("operator", Value.str "x")] = [("operator", Value.str "<")]
      ∧ SQLField.Gte (SQLField.Lt [("operator", Value.str "x")]) =
        [("operator", Value.str ">=")]
      ∧ SQLField.Gte (SQLField.Lt [("operator", Value.str "x")]) ≠
        SQLField.Lt [("operator", Value.str "x")]
      ∧ SQLField.Lt (SQLField.Gte [("operator", Value.str "x")]) ≠
        SQLField.Gte [("operator", Value.str "x")] := by
  refine ⟨rfl, rfl, ?_, ?_⟩
  · intro h
    have h2 : ([("operator", Value.str ">=")] : SQLField) = [("operator", Value.str "<")] := h
    simp at h2
  · intro h
    have h2 : ([("operator", Value.str "<")] : SQLField) = [("operator", Value.str ">=")] := h
    simp at h2

/-! ## Generation reads only -/

/-- C15: `Generate` leaves the builder as it was, every clause and the
arguments included, and a second call returns the same statement, arguments
and error as the first. -/
theorem generate_idempotent (q : SQLQuery) :
    q.GenerateSt.1 = q
      ∧ q.GenerateSt.2 = q.Generate
      ∧ q.GenerateSt.1.GenerateSt.2 = q.GenerateSt.2
      ∧ q.GenerateSt.1.GenerateSt.1 = q := by
  have hst : q.GenerateSt = (q, q.Generate) := by
    unfold SQLQuery.GenerateSt SQLQuery.Generate
    split
    · rfl
    · split
      · split <;> rfl
      · split <;> rfl
  rw [hst]
  simp only [hst]
  exact ⟨trivial, trivial, trivial, trivial⟩

/-! ## The accessor `String` -/

theorem itoa_eq_decimal (i : Int) : itoa i = decimal i := by
  cases i with
  | ofNat n =>
    have h : ¬ ((n : Int) < 0) := by omega
    simp [itoa, decimal, h]
  | negSucc n =>
    have h : Int.negSucc n < 0 := Int.negSucc_lt_zero n
    simp [itoa, decimal, h, Int.natAbs]

theorem get_absent (s : SQLField) (k : String) (h : ∀ kv ∈ s, kv.1 ≠ k) : s.get k = none := by
  induction s with
  | nil => rfl
  | cons kv rest ih =>
    obtain ⟨k2, v2⟩ := kv
    have hne : k2 ≠ k := h (k2, v2) (List.mem_cons_self _ _)
    have hbeq : (k == k2) = false := by
      simpa using fun h2 : k = k2 => hne h2.symm
    have hrest := ih (fun kv hkv => h kv (List.mem_cons_of_mem _ hkv))
    simp only [SQLField.get] at hrest ⊢
    simp [List.lookup, hbeq, hrest]

/-- C16: `s.String(k)` returns the string itself when `s[k]` is a string, the
base-10 text (with a leading `-` for a negative number) when it is an `int64`
or an `int`, and the empty string when `k` is not a key of `s` or `s[k]` is
nil, a boolean or a sequence.  Here `out` ranges over the three cases. -/
theorem string_accessor (s : SQLField) (k out : String)
    (hcase : s.get k = some (Value.str out)
      ∨ (∃ i, (s.get k = some (Value.int64 i) ∨ s.get k = some (Value.int i))
          ∧ out = decimal i)
      ∨ (((∀ kv ∈ s, kv.1 ≠ k) ∨ s.get k = some Value.nil
            ∨ (∃ b, s.get k = some (Value.bool b))
            ∨ (∃ es, s.get k = some (Value.seq es)))
          ∧ out = "")) :
    s.String k = out := by
  rcases hcase with h | ⟨i, h | h, rfl⟩ | ⟨h | h | ⟨b, h⟩ | ⟨es, h⟩, rfl⟩
  · simp [SQLField.String, h]
  · simp [SQLField.String, h, itoa_eq_decimal]
  · simp [SQLField.String, h, itoa_eq_decimal]
  · simp [SQLField.String, get_absent s k h]
  · simp [SQLField.String, h]
  · simp [SQLField.String, h]
  · simp [SQLField.String, h]

/-- Witness of C16: a negative machine integer. -/
theorem string_accessor_witness :
    SQLField.String [("name", Value.str "x"), ("n", Value.int (-42))] "n" = "-42" :=
  string_accessor [("name", Value.str "x"), ("n", Value.int (-42))] "n" "-42"
    (Or.inr (Or.inl ⟨-42, Or.inr rfl, rfl⟩))

/-! ## Repeated calls -/

theorem countPlaceholders_Join (items : List String) (sep : String)
    (hsep : countPlaceholders sep = 0) :
    countPlaceholders (Join items sep) = (items.map countPlaceholders).sum := by
  induction items with
  | nil => rfl
  | cons x rest ih =>
    cases rest with
    | nil => simp [Join]
    | cons y rest2 =>
      have hstep : Join (x :: y :: rest2) sep = x ++ sep ++ Join (y :: rest2) sep := rfl
      rw [hstep, countPlaceholders_append, countPlaceholders_append, ih, hsep]
      simp

theorem countPlaceholders_conditions (ws : List (String × Value)) (sep : String)
    (hsep : countPlaceholders sep = 0) :
    countPlaceholders (Join (ws.map fun w => w.1 ++ " = ?") sep) =
      ws.length + (ws.map fun w => countPlaceholders w.1).sum := by
  rw [countPlaceholders_Join _ _ hsep]
  induction ws with
  | nil => rfl
  | cons w rest ih =>
    have hlit : countPlaceholders " = ?" = 1 := rfl
    simp only [List.map_cons, List.sum_cons, List.length_cons, countPlaceholders_append, hlit]
    simp only [List.map_map] at ih ⊢
    rw [ih]
    omega

/-- C18: for non-empty lists `a` and `b` of single scalar columns, after
`q.Where(a).Where(b)` the WHERE clause is the one `q.Where(b)` writes, rendered
from `b` alone, while the arguments are those of `q`, then the values of `a`,
then the values of `b`; `Set` behaves likewise.  So on a non-empty table name
`Select().From(t).Where(a).Where(b).Generate()` returns
`SELECT * FROM t WHERE ..` over the columns of `b`, with one `?` per field of
`b` (next to any `?` inside the names) and `len(a) + len(b)` arguments. -/
theorem where_replaces_clause_keeps_args (q : SQLQuery) (a b : List (String × Value))
    (t : String) (ha : a ≠ []) (hb : b ≠ [])
    (hka : ∀ w ∈ a, w.1 ≠ "operator" ∧ w.2.isSeq = false)
    (hkb : ∀ w ∈ b, w.1 ≠ "operator" ∧ w.2.isSeq = false) (ht : t ≠ "") :
    ((q.Where (a.map fun w => [w])).Where (b.map fun w => [w])).whereClause =
        (q.Where (b.map fun w => [w])).whereClause
      ∧ ((q.Where (a.map fun w => [w])).Where (b.map fun w => [w])).whereClause =
        "WHERE " ++ Join (b.map fun w => w.1 ++ " = ?") " AND "
      ∧ ((q.Where (a.map fun w => [w])).Where (b.map fun w => [w])).args =
        some (q.args.getD [] ++ a.map Prod.snd ++ b.map Prod.snd)
      ∧ ((q.Set (a.map fun w => [w])).Set (b.map fun w => [w])).setClause =
        (q.Set (b.map fun w => [w])).setClause
      ∧ ((q.Set (a.map fun w => [w])).Set (b.map fun w => [w])).setClause =
        "SET " ++ Join (b.map fun w => w.1 ++ " = ?") ", "
      ∧ ((q.Set (a.map fun w => [w])).Set (b.map fun w => [w])).args =
        some (q.args.getD [] ++ a.map Prod.snd ++ b.map Prod.snd)
      ∧ ((((Select []).From t).Where (a.map fun w => [w])).Where
          (b.map fun w => [w])).Generate =
        ("SELECT * FROM " ++ t ++ " WHERE " ++ Join (b.map fun w => w.1 ++ " = ?") " AND ",
          some (a.map Prod.snd ++ b.map Prod.snd), none)
      ∧ countPlaceholders ((((Select []).From t).Where (a.map fun w => [w])).Where
          (b.map fun w => [w])).Generate.1 =
        b.length + (countPlaceholders t + (b.map fun w => countPlaceholders w.1).sum)
      ∧ sliceLen ((((Select []).From t).Where (a.map fun w => [w])).Where
          (b.map fun w => [w])).Generate.2.1 = a.length + b.length := by
  have hfrom : (Select []).From t = { Select [] with fromClause := "FROM " ++ t } := by
    simp [SQLQuery.From, ht]
  have hfne : "FROM " ++ t ≠ "" := str_append_ne_empty_left _ (by decide)
  have hwne : "WHERE " ++ Join (b.map fun w => w.1 ++ " = ?") " AND " ≠ "" :=
    str_append_ne_empty_left _ (by decide)
  have hgen : ((((Select []).From t).Where (a.map fun w => [w])).Where
      (b.map fun w => [w])).Generate =
      ("SELECT * FROM " ++ t ++ " WHERE " ++ Join (b.map fun w => w.1 ++ " = ?") " AND ",
        some (a.map Prod.snd ++ b.map Prod.snd), none) := by
    rw [Where_scalars _ a ha hka, Where_scalars _ b hb hkb, hfrom, generate_select_shape]
    · simp only [hwne, ne_eq, not_false_eq_true, if_true]
      refine Prod.ext ?_ ?_
      · apply String.ext
        simp [String.data_append, Select]
      · simp [Select]
    · rfl
    · rfl
    · exact Select_selectClause_ne []
    · exact hfne
  refine ⟨?_, ?_, ?_, ?_, ?_, ?_, hgen, ?_, ?_⟩
  · rw [Where_scalars _ a ha hka, Where_scalars _ b hb hkb, Where_scalars _ b hb hkb]
  · rw [Where_scalars _ a ha hka, Where_scalars _ b hb hkb]
  · rw [Where_scalars _ a ha hka, Where_scalars _ b hb hkb]
    simp
  · rw [Set_scalars _ a ha hka, Set_scalars _ b hb hkb, Set_scalars _ b hb hkb]
  · rw [Set_scalars _ a ha hka, Set_scalars _ b hb hkb]
  · rw [Set_scalars _ a ha hka, Set_scalars _ b hb hkb]
    simp
  · rw [hgen]
    have h1 : countPlaceholders "SELECT * FROM " = 0 := rfl
    have h2 : countPlaceholders " WHERE " = 0 := rfl
    simp only [countPlaceholders_append, h1, h2,
      countPlaceholders_conditions b " AND " rfl]
    omega
  · rw [hgen]
    simp [sliceLen]

/-- Witness of C18: two `Where` calls of one condition each. -/
theorem where_replaces_clause_keeps_args_witness :
    (((Update "u").Where [[("a", Value.str "1")]]).Where [[("b", Value.str "2")]]).whereClause =
        ((Update "u").Where [[("b", Value.str "2")]]).whereClause
      ∧ (((Update "u").Where [[("a", Value.str "1")]]).Where
          [[("b", Value.str "2")]]).whereClause = "WHERE b = ?"
      ∧ (((Update "u").Where [[("a", Value.str "1")]]).Where [[("b", Value.str "2")]]).args =
        some [Value.str "1", Value.str "2"]
      ∧ (((Update "u").Set [[("a", Value.str "1")]]).Set [[("b", Value.str "2")]]).setClause =
        ((Update "u").Set [[("b", Value.str "2")]]).setClause
      ∧ (((Update "u").Set [[("a", Value.str "1")]]).Set [[("b", Value.str "2")]]).setClause =
        "SET b = ?"
      ∧ (((Update "u").Set [[("a", Value.str "1")]]).Set [[("b", Value.str "2")]]).args =
        some [Value.str "1", Value.str "2"]
      ∧ ((((Select []).From "t").Where [[("a", Value.str "1")]]).Where
          [[("b", Value.str "2")]]).Generate =
        ("SELECT * FROM t WHERE b = ?", some [Value.str "1", Value.str "2"], none)
      ∧ countPlaceholders ((((Select []).From "t").Where [[("a", Value.str "1")]]).Where
          [[("b", Value.str "2")]]).Generate.1 = 1
      ∧ sliceLen ((((Select []).From "t").Where [[("a", Value.str "1")]]).Where
          [[("b", Value.str "2")]]).Generate.2.1 = 2 :=
  where_replaces_clause_keeps_args (Update "u") [("a", Value.str "1")] [("b", Value.str "2")]
    "t" (by simp) (by simp) (by decide) (by decide) (by decide)

/-! ## UPDATE statements ignore FROM, OFFSET and LIMIT -/

theorem updateView_apply_kept (q q2 : SQLQuery) (c : Call) (hc : c.isSetOrWhere = true)
    (h : updateView q = updateView q2) :
    updateView (Call.apply q c) = updateView (Call.apply q2 c) := by
  simp only [updateView, Prod.mk.injEq] at h
  obtain ⟨h1, h2, h3, h4, h5, h6⟩ := h
  cases c <;> simp [Call.isSetOrWhere] at hc <;>
    simp only [Call.apply, SQLQuery.Set, SQLQuery.Where] <;>
    split <;> simp [updateView, h1, h2, h3, h4, h5, h6]

theorem updateView_apply_dropped (q : SQLQuery) (c : Call) (hc : c.isSetOrWhere = false) :
    updateView (Call.apply q c) = updateView q := by
  cases c <;> simp [Call.isSetOrWhere] at hc <;>
    simp only [Call.apply, SQLQuery.From, SQLQuery.Offset, SQLQuery.Limit] <;>
    (try split) <;> rfl

theorem updateView_runCalls_filter (calls : List Call) (q q2 : SQLQuery)
    (h : updateView q = updateView q2) :
    updateView (runCalls q calls) =
      updateView (runCalls q2 (calls.filter Call.isSetOrWhere)) := by
  induction calls generalizing q q2 with
  | nil => exact h
  | cons c rest ih =>
    cases hc : c.isSetOrWhere
    · have hstep := (updateView_apply_dropped q c hc).trans h
      have := ih (Call.apply q c) q2 hstep
      simpa [runCalls, List.filter_cons, hc] using this
    · have hstep := updateView_apply_kept q q2 c hc h
      have := ih (Call.apply q c) (Call.apply q2 c) hstep
      simpa [runCalls, List.filter_cons, hc] using this

/-- Two builders without SELECT clause that agree on the arguments and on the
INSERT, UPDATE, SET and WHERE clauses generate the same result. -/
theorem generate_of_updateView (q q2 : SQLQuery) (h : updateView q = updateView q2)
    (hs : q.selectClause = "") : q.Generate = q2.Generate := by
  simp only [updateView, Prod.mk.injEq] at h
  obtain ⟨h1, h2, h3, h4, h5, h6⟩ := h
  have hs2 : q2.selectClause = "" := by rw [← h6]; exact hs
  unfold SQLQuery.Generate
  simp only [h1, h2, h3, h4, h5, hs, hs2, ne_eq, not_true_eq_false, false_and, if_false]

theorem setClause_after_calls (calls : List Call) (q : SQLQuery)
    (h : q.setClause ≠ "" ∨ ∃ fs, fs ≠ [] ∧ Call.Set fs ∈ calls) :
    (runCalls q calls).setClause ≠ "" := by
  induction calls generalizing q with
  | nil =>
    rcases h with h | ⟨fs, _, hmem⟩
    · exact h
    · simp at hmem
  | cons c rest ih =>
    have hrun : runCalls q (c :: rest) = runCalls (Call.apply q c) rest := rfl
    rw [hrun]
    apply ih
    rcases h with h | ⟨fs, hfs, hmem⟩
    · left
      cases c <;>
        simp only [Call.apply, SQLQuery.Set, SQLQuery.From, SQLQuery.Where, SQLQuery.Offset,
          SQLQuery.Limit] <;>
        (try split) <;>
        first
          | exact h
          | (rw [writePlaceholder_frame]
             simp only [String.empty_append]
             exact str_append_ne_empty_left _ (by decide))
    · rcases List.mem_cons.mp hmem with heq | hrest
      · left
        rw [← heq, Call.apply, Set_nonempty q fs hfs]
        exact str_append_ne_empty_left _ (by decide)
      · right
        exact ⟨fs, hfs, hrest⟩

/-- C19: on a builder from `Update(t)` whose chain calls `Set` with at least
one field, the calls to `From`, `Offset` and `Limit` change nothing in what
`Generate` returns: a chain, the chain without them, and every other chain
with the same `Set` and `Where` calls in the same order generate the same
statement and arguments, and the statement is the UPDATE clause, the SET
clause and the WHERE clause when populated. -/
theorem update_ignores_from_offset_limit (t : String) (calls other : List Call)
    (fs : List SQLField) (hfs : fs ≠ []) (hmem : Call.Set fs ∈ calls)
    (hsame : other.filter Call.isSetOrWhere = calls.filter Call.isSetOrWhere) :
    (runCalls (Update t) other).Generate = (runCalls (Update t) calls).Generate
      ∧ (runCalls (Update t) calls).Generate =
        (runCalls (Update t) (calls.filter Call.isSetOrWhere)).Generate
      ∧ (runCalls (Update t) calls).Generate =
        ("UPDATE " ++ t ++ " " ++ (runCalls (Update t) calls).setClause
            ++ (if (runCalls (Update t) calls).whereClause ≠ "" then
                  " " ++ (runCalls (Update t) calls).whereClause else ""),
          (runCalls (Update t) calls).args, none) := by
  have hfilter : ∀ cs : List Call, (runCalls (Update t) cs).Generate =
      (runCalls (Update t) (cs.filter Call.isSetOrWhere)).Generate := by
    intro cs
    exact generate_of_updateView _ _ (updateView_runCalls_filter cs (Update t) (Update t) rfl)
      (runCalls_keeps_constructor_clauses cs (Update t)).2.1
  obtain ⟨hi, _, hu⟩ := runCalls_keeps_constructor_clauses calls (Update t)
  have hune : (runCalls (Update t) calls).updateClause ≠ "" := by
    rw [hu]
    exact str_append_ne_empty_left _ (by decide)
  have hsne := setClause_after_calls calls (Update t) (Or.inr ⟨fs, hfs, hmem⟩)
  refine ⟨?_, hfilter calls, ?_⟩
  · rw [hfilter other, hfilter calls, hsame]
  · rw [generate_update_shape _ hi hune hsne, hu]
    rfl

/-- Witness of C19: the UPDATE with WHERE of the test suite, with `From`,
`Offset` and `Limit` calls put before, between and after its two calls. -/
theorem update_ignores_from_offset_limit_witness :
    (runCalls (Update "table_name")
        [Call.Set [[("col1", Value.str "val1")]],
          Call.Where [[("col2", Value.str "val2")]]]).Generate =
        (runCalls (Update "table_name")
          [Call.From "x", Call.Set [[("col1", Value.str "val1")]], Call.Offset 1,
            Call.Where [[("col2", Value.str "val2")]], Call.Limit 10]).Generate
      ∧ (runCalls (Update "table_name")
          [Call.From "x", Call.Set [[("col1", Value.str "val1")]], Call.Offset 1,
            Call.Where [[("col2", Value.str "val2")]], Call.Limit 10]).Generate =
        (runCalls (Update "table_name")
          [Call.Set [[("col1", Value.str "val1")]],
            Call.Where [[("col2", Value.str "val2")]]]).Generate
      ∧ (runCalls (Update "table_name")
          [Call.From "x", Call.Set [[("col1", Value.str "val1")]], Call.Offset 1,
            Call.Where [[("col2", Value.str "val2")]], Call.Limit 10]).Generate =
        ("UPDATE table_name SET col1 = ? WHERE col2 = ?",
          some [Value.str "val1", Value.str "val2"], none) :=
  update_ignores_from_offset_limit "table_name"
    [Call.From "x", Call.Set [[("col1", Value.str "val1")]], Call.Offset 1,
      Call.Where [[("col2", Value.str "val2")]], Call.Limit 10]
    [Call.Set [[("col1", Value.str "val1")]], Call.Where [[("col2", Value.str "val2")]]]
    [[("col1", Value.str "val1")]] (by simp)
    (List.mem_cons_of_mem _ (List.mem_cons_self _ _)) rfl

end Msql
